import Mathlib

/-!
# Realtime Dimension Inspector — verification development

Shallow embedding of `src/realtime-dimension-inspector.js`, a single browser
utility `showElementDimensions(options)` that overlays live viewport and
element dimension readouts onto a page.

Modelling decisions (all stated here once):

* The DOM is a state record: the page's content elements (each with an id and
  a bounding rectangle), the overlay blocs appended to `document.body` by this
  system, the registered `ResizeObserver`s, the registered `window` `resize`
  listeners, the viewport size, and a fresh-id counter for newly created
  nodes.
* Geometry is modelled in exact hundredths of a CSS pixel (`Nat`), so that
  JavaScript's `toFixed(2)` becomes exact two-decimal rendering; viewport
  sizes (`window.innerWidth`/`innerHeight`) are integral pixels.
* A closure (`updateDimensions` in the source) is represented by the data it
  captures: the selector string, the target element's id, and the overlay's
  id.  Running it is a state transformer (`runRender`).
* `document.querySelector` is a host-environment capability, not code of this
  repository.  It is modelled after the web platform's specified behaviour:
  a selector string that the selector grammar rejects — the empty string is
  always rejected — makes the lookup raise a `SyntaxError`; an accepted
  selector resolves to the first matching element in document order, or to
  nothing.  The environment record carries which non-empty selectors the host
  accepts and which elements a selector matches.
* Each call also produces a trace of the observable host interactions, in the
  order the source performs them, so that ordering claims (styling before the
  lookup check, render before listener installation, no measurement on the
  missing-element path) are statable.  Measurements happen only inside the
  render operation, so a trace without a render event is a run without a
  measurement.
-/

namespace RDI

/-- A bounding rectangle, in hundredths of a CSS pixel
(`getBoundingClientRect` width/height). -/
structure Rect where
  width : Nat
  height : Nat
deriving DecidableEq

/-- A content element of the hosting page: an identity and its current
bounding rectangle. -/
structure PageElem where
  eid : Nat
  rect : Rect
deriving DecidableEq

/-- The inline style properties the source assigns to the results bloc. -/
structure OverlayStyle where
  position : String
  top : String
  left : String
  transform : String
  zIndex : String
  border : String
  color : String
  fontWeight : String
  backgroundColor : String
  padding : String
  margin : String
  display : String
  boxShadow : String
deriving DecidableEq

/-- The results bloc (`resultsBloc` in the source): a `div` with a class,
inline styles, and displayed content (`textContent` / `innerHTML`). -/
structure Overlay where
  oid : Nat
  className : String
  style : OverlayStyle
  content : String
deriving DecidableEq

/-- The data captured by the `updateDimensions` closure: the caller-supplied
selector, the target element it measures, and the overlay it writes into. -/
structure RenderClosure where
  selector : String
  eid : Nat
  oid : Nat
deriving DecidableEq

/-- A `ResizeObserver` created by the source: the node it observes and the
closure it invokes. -/
structure Observer where
  target : Nat
  callback : RenderClosure
deriving DecidableEq

/-- The mutable document state the function interacts with. -/
structure DOMState where
  innerWidth : Nat
  innerHeight : Nat
  pageElems : List PageElem
  overlays : List Overlay
  observers : List Observer
  resizeListeners : List RenderClosure
  nextId : Nat
deriving DecidableEq

/-- The options record accepted by `showElementDimensions`; both fields are
optional (`undefined` when absent, which triggers the destructuring
defaults). -/
structure Options where
  selector : Option String := none
  color : Option String := none
deriving DecidableEq

/-- Host-environment capabilities consumed by the function: which non-empty
selector strings the selector grammar accepts, which elements a selector
matches, and whether `ResizeObserver` exists (`"ResizeObserver" in window`). -/
structure Env where
  valid : String → Bool
  matchesElem : String → Nat → Bool
  supportsRO : Bool

/-- Errors the host environment can raise into the function. -/
inductive JSError where
  | syntaxError
deriving DecidableEq

/-- Observable host interactions of one call, in program order. -/
inductive Ev where
  | queryEv (selector : String)
  | createEv (oid : Nat)
  | styleEv (oid : Nat)
  | checkEv (found : Bool)
  | appendEv (oid : Nat)
  | renderEv (oid : Nat)
  | observeEv (target : Nat)
  | listenEv
deriving DecidableEq

/-- `document.querySelector(selector)`.  Per the platform's selector-grammar
rules an empty selector string is invalid and the lookup raises a
`SyntaxError`; other rejected strings are those the environment's grammar
refuses.  An accepted selector resolves to the first matching element in
document order, or to nothing. -/
def querySelector (env : Env) (dom : DOMState) (s : String) :
    Except JSError (Option PageElem) :=
  if s = "" then .error .syntaxError
  else if env.valid s then
    .ok (dom.pageElems.find? (fun e => env.matchesElem s e.eid))
  else .error .syntaxError

/-- `const { selector = "body" } = options`. -/
def resolvedSelector (o : Options) : String := o.selector.getD "body"

/-- `const { color = "#989898" } = options`. -/
def resolvedColor (o : Options) : String := o.color.getD "#989898"

/-- The style assignments of the source, lines 24–38: position, top, left,
transform, z-index, border, color, font-weight, background, padding, margin,
display, box-shadow. -/
def overlayStyle (color : String) : OverlayStyle :=
  { position := "fixed"
    top := "10px"
    left := "50%"
    transform := "translateX(-50%)"
    zIndex := "9999"
    border := "2px solid " ++ color
    color := color
    fontWeight := "bold"
    backgroundColor := "#fff8dc"
    padding := "5px 10px"
    margin := "0"
    display := "inline-block"
    boxShadow := "0 2px 5px rgba(0,0,0,0.2)" }

/-- Render a number below 100 with exactly two digits. -/
def twoDigits (n : Nat) : String :=
  if n < 10 then "0" ++ toString n else toString n

/-- `x.toFixed(2)` for a non-negative quantity held in exact hundredths. -/
def toFixed2 (centi : Nat) : String :=
  toString (centi / 100) ++ "." ++ twoDigits (centi % 100)

/-- The error message of the missing-element path. -/
def missingText (s : String) : String :=
  "Element not present for selector: \"" ++ s ++ "\""

/-- The `innerHTML` string built by `updateDimensions`, with the template
literal's exact whitespace. -/
def updateDimensions (selector : String) (vpWidth vpHeight : Nat)
    (rect : Rect) : String :=
  "\n            Viewport => width: " ++ toString vpWidth ++ "px | height: " ++
    toString vpHeight ++ "px\n            <br>\n            " ++ selector ++
    " => width: " ++ toFixed2 rect.width ++ " px | height: " ++
    toFixed2 rect.height ++ " px\n          "

/-- `element.getBoundingClientRect()` at render time: the element's current
rectangle; a node no longer laid out measures as zero. -/
def getRect (dom : DOMState) (eid : Nat) : Rect :=
  match dom.pageElems.find? (fun e => e.eid == eid) with
  | some e => e.rect
  | none => ⟨0, 0⟩

/-- Assign the displayed content of the overlay with id `oid`. -/
def setOverlayContent (dom : DOMState) (oid : Nat) (s : String) : DOMState :=
  { dom with
    overlays := dom.overlays.map fun o =>
      if o.oid == oid then { o with content := s } else o }

/-- One run of the render operation (`updateDimensions` in the source): read
the viewport, read the target's bounding rectangle, and overwrite the bound
overlay's displayed content. -/
def runRender (dom : DOMState) (c : RenderClosure) : DOMState :=
  setOverlayContent dom c.oid
    (updateDimensions c.selector dom.innerWidth dom.innerHeight
      (getRect dom c.eid))

/-- Look up an overlay in the document by its id. -/
def readOverlay (dom : DOMState) (oid : Nat) : Option Overlay :=
  dom.overlays.find? (fun o => o.oid == oid)

/-- `showElementDimensions(options)`, translated statement by statement from
the source: resolve defaults, query the selector (a raised `SyntaxError`
propagates), create and style the results bloc, then either display the
missing-element message and return, or append, render once, optionally
observe the target, and register the window resize listener.  Returns the
updated document state and the interaction trace. -/
def showElementDimensions (env : Env) (dom : DOMState) (options : Options) :
    Except JSError (DOMState × List Ev) :=
  let selector := resolvedSelector options
  let color := resolvedColor options
  match querySelector env dom selector with
  | .error e => .error e
  | .ok elemOpt =>
    let oid := dom.nextId
    let bloc : Overlay :=
      { oid := oid, className := "sizing-results-bloc"
        style := overlayStyle color, content := "" }
    let t0 : List Ev := [.queryEv selector, .createEv oid, .styleEv oid]
    match elemOpt with
    | none =>
      let bloc := { bloc with content := missingText selector }
      .ok ({ dom with overlays := dom.overlays ++ [bloc]
                      nextId := dom.nextId + 1 },
           t0 ++ [.checkEv false, .appendEv oid])
    | some el =>
      let c : RenderClosure := { selector := selector, eid := el.eid, oid := oid }
      let dom1 := { dom with overlays := dom.overlays ++ [bloc]
                             nextId := dom.nextId + 1 }
      let dom2 := runRender dom1 c
      let dom3 :=
        if env.supportsRO then
          { dom2 with observers := dom2.observers ++ [⟨el.eid, c⟩] }
        else dom2
      let dom4 := { dom3 with resizeListeners := dom3.resizeListeners ++ [c] }
      .ok (dom4,
           t0 ++ [.checkEv true, .appendEv oid, .renderEv oid] ++
             (if env.supportsRO then [.observeEv el.eid] else []) ++
             [.listenEv])

/-- Document well-formedness: created node ids are below the fresh-id
counter, and page elements have pairwise distinct ids. -/
def DOMWf (dom : DOMState) : Prop :=
  (∀ e ∈ dom.pageElems, e.eid < dom.nextId) ∧
  (∀ o ∈ dom.overlays, o.oid < dom.nextId) ∧
  (dom.pageElems.map PageElem.eid).Nodup

instance (dom : DOMState) : Decidable (DOMWf dom) := by
  unfold DOMWf
  infer_instance

/-- A concrete host for evaluation: any non-empty selector is grammatical,
`"#target"` matches element 0, `"#other"` matches element 1, and
`ResizeObserver` is available. -/
def envA : Env :=
  { valid := fun s => !(s == "")
    matchesElem := fun s eid =>
      (s == "#target" && eid == 0) || (s == "#other" && eid == 1)
    supportsRO := true }

/-- A concrete page: two content elements and an 800×600 viewport. -/
def dom0 : DOMState :=
  { innerWidth := 800, innerHeight := 600
    pageElems := [⟨0, ⟨12345, 20000⟩⟩, ⟨1, ⟨5000, 5075⟩⟩]
    overlays := [], observers := [], resizeListeners := [], nextId := 2 }

/-- The document produced from `dom0` by a missing-element call with selector
`"#nomatch"` and color `"blue"`. -/
def domMissingBlue : DOMState :=
  { innerWidth := 800, innerHeight := 600
    pageElems := [⟨0, ⟨12345, 20000⟩⟩, ⟨1, ⟨5000, 5075⟩⟩]
    overlays := [{ oid := 2, className := "sizing-results-bloc"
                   style := overlayStyle "blue"
                   content := missingText "#nomatch" }]
    observers := [], resizeListeners := [], nextId := 3 }

/-- The document produced from `dom0` by a missing-element call with selector
`"#gone"` and the default color. -/
def domMissingGray : DOMState :=
  { innerWidth := 800, innerHeight := 600
    pageElems := [⟨0, ⟨12345, 20000⟩⟩, ⟨1, ⟨5000, 5075⟩⟩]
    overlays := [{ oid := 2, className := "sizing-results-bloc"
                   style := overlayStyle "#989898"
                   content := missingText "#gone" }]
    observers := [], resizeListeners := [], nextId := 3 }

/-- Is an event a run of the render operation?  Measurements (viewport and
bounding-rectangle reads) happen only inside the render operation. -/
def isRenderEv : Ev → Bool
  | .renderEv _ => true
  | _ => false

/-- Is an event the installation of a resize binding (element-resize
observation or the window resize listener)? -/
def isBindingEv : Ev → Bool
  | .observeEv _ => true
  | .listenEv => true
  | _ => false

/-- Shape of the call when the lookup raises: the error propagates. -/
theorem showElementDimensions_raise_eq (env : Env) (dom : DOMState)
    (options : Options) (e : JSError)
    (h : querySelector env dom (resolvedSelector options) = .error e) :
    showElementDimensions env dom options = .error e := by
  simp only [showElementDimensions, h]

/-- Shape of the call on the missing-element path, computed once. -/
theorem showElementDimensions_missing_eq (env : Env) (dom : DOMState)
    (options : Options)
    (h : querySelector env dom (resolvedSelector options) = .ok none) :
    showElementDimensions env dom options =
      .ok ({ dom with
               overlays := dom.overlays ++
                 [{ oid := dom.nextId, className := "sizing-results-bloc"
                    style := overlayStyle (resolvedColor options)
                    content := missingText (resolvedSelector options) }]
               nextId := dom.nextId + 1 },
           [.queryEv (resolvedSelector options), .createEv dom.nextId,
            .styleEv dom.nextId, .checkEv false, .appendEv dom.nextId]) := by
  simp only [showElementDimensions, h, List.cons_append, List.nil_append]

/-- Shape of the call on the found-element path, computed once. -/
theorem showElementDimensions_found_eq (env : Env) (dom : DOMState)
    (options : Options) (el : PageElem)
    (h : querySelector env dom (resolvedSelector options) = .ok (some el)) :
    showElementDimensions env dom options =
      .ok ({ dom with
               overlays := (dom.overlays ++
                 [({ oid := dom.nextId, className := "sizing-results-bloc"
                     style := overlayStyle (resolvedColor options)
                     content := "" } : Overlay)]).map
                 (fun (o : Overlay) => if o.oid == dom.nextId then
                     { o with content := (updateDimensions (resolvedSelector options) dom.innerWidth dom.innerHeight (getRect dom el.eid)) }
                   else o)
               observers := dom.observers ++
                 (if env.supportsRO then
                    [⟨el.eid, ⟨resolvedSelector options, el.eid, dom.nextId⟩⟩]
                  else [])
               resizeListeners := dom.resizeListeners ++
                 [⟨resolvedSelector options, el.eid, dom.nextId⟩]
               nextId := dom.nextId + 1 },
           [.queryEv (resolvedSelector options), .createEv dom.nextId,
            .styleEv dom.nextId, .checkEv true, .appendEv dom.nextId,
            .renderEv dom.nextId] ++
             (if env.supportsRO then [.observeEv el.eid] else []) ++
             [.listenEv]) := by
  cases hRO : env.supportsRO <;>
    simp [showElementDimensions, h, hRO, runRender, setOverlayContent, getRect]

/-- C1 as stated is false: the empty string selector is a documented input
(the spec names it explicitly), yet the platform's selector lookup raises a
`SyntaxError` on it, the source wraps the lookup in no handler, and the error
propagates to the caller instead of being rendered as overlay text. -/
theorem c1_counterexample :
    showElementDimensions envA dom0 { selector := some "" } =
      .error .syntaxError := rfl

/-- C1 (amended): for every configuration whose resolved selector is a
non-empty string the host's selector grammar accepts — including every
accepted selector matching no element — `showElementDimensions` returns
normally and never raises; only a selector the grammar rejects, such as the
empty string, makes the lookup's error propagate to the caller. -/
theorem c1_no_raise_on_accepted (env : Env) (dom : DOMState) (options : Options)
    (hne : resolvedSelector options ≠ "")
    (hv : env.valid (resolvedSelector options) = true) :
    ∃ r, showElementDimensions env dom options = .ok r := by
  have hq : querySelector env dom (resolvedSelector options) =
      .ok (dom.pageElems.find?
        (fun e => env.matchesElem (resolvedSelector options) e.eid)) := by
    unfold querySelector
    rw [if_neg hne, if_pos hv]
  cases hf : dom.pageElems.find?
      (fun e => env.matchesElem (resolvedSelector options) e.eid) with
  | none =>
    exact ⟨_, showElementDimensions_missing_eq env dom options (hf ▸ hq)⟩
  | some el =>
    exact ⟨_, showElementDimensions_found_eq env dom options el (hf ▸ hq)⟩

/-- Witness for C1 (amended) at a concrete accepted selector. -/
theorem c1_no_raise_on_accepted_witness :
    resolvedSelector { selector := some "#nomatch" } ≠ "" ∧
    envA.valid (resolvedSelector { selector := some "#nomatch" }) = true ∧
    ∃ r, showElementDimensions envA dom0 { selector := some "#nomatch" } = .ok r :=
  ⟨by decide, by decide,
   c1_no_raise_on_accepted envA dom0 { selector := some "#nomatch" }
     (by decide) (by decide)⟩

/-- C2: for a selector matching zero elements the call sets the overlay's
text to exactly `Element not present for selector: "<selector>"` with the
caller's selector substituted, appends the overlay to the body, and returns:
the observer list and the resize-listener list are untouched, and the trace
holds no render event (so no measurement) and no binding event. -/
theorem c2_missing_element (env : Env) (dom : DOMState) (options : Options)
    (h : querySelector env dom (resolvedSelector options) = .ok none) :
    ∃ dom' t, showElementDimensions env dom options = .ok (dom', t) ∧
      dom'.overlays = dom.overlays ++
        [{ oid := dom.nextId, className := "sizing-results-bloc"
           style := overlayStyle (resolvedColor options)
           content := missingText (resolvedSelector options) }] ∧
      dom'.observers = dom.observers ∧
      dom'.resizeListeners = dom.resizeListeners ∧
      dom'.pageElems = dom.pageElems ∧
      (∀ e ∈ t, isRenderEv e = false ∧ isBindingEv e = false) := by
  refine ⟨_, _, showElementDimensions_missing_eq env dom options h,
    rfl, rfl, rfl, rfl, ?_⟩
  simp [List.forall_mem_cons, isRenderEv, isBindingEv]

/-- Witness for C2 at a concrete non-matching selector. -/
theorem c2_missing_element_witness :
    querySelector envA dom0 (resolvedSelector { selector := some "#nomatch" }) =
      .ok none ∧
    (∃ dom' t,
      showElementDimensions envA dom0 { selector := some "#nomatch" } =
        .ok (dom', t) ∧
      dom'.overlays = dom0.overlays ++
        [{ oid := dom0.nextId, className := "sizing-results-bloc"
           style := overlayStyle (resolvedColor { selector := some "#nomatch" })
           content := missingText (resolvedSelector { selector := some "#nomatch" }) }] ∧
      dom'.observers = dom0.observers ∧
      dom'.resizeListeners = dom0.resizeListeners ∧
      dom'.pageElems = dom0.pageElems ∧
      (∀ e ∈ t, isRenderEv e = false ∧ isBindingEv e = false)) :=
  ⟨rfl, c2_missing_element envA dom0 { selector := some "#nomatch" } rfl⟩

/-- A map that fixes every member of a list leaves the list unchanged. -/
theorem map_fix_eq_self {α : Type} (f : α → α) (l : List α)
    (h : ∀ x ∈ l, f x = x) : l.map f = l := by
  induction l with
  | nil => rfl
  | cons x xs ih =>
    simp only [List.map_cons, h x (List.mem_cons_self x xs),
      ih (fun y hy => h y (List.mem_cons_of_mem x hy))]

/-- `find?` skips a prefix on which the predicate is everywhere false. -/
theorem find?_skip_left {α : Type} (p : α → Bool) (l₁ l₂ : List α)
    (h : ∀ x ∈ l₁, p x = false) :
    (l₁ ++ l₂).find? p = l₂.find? p := by
  induction l₁ with
  | nil => rfl
  | cons x xs ih =>
    rw [List.cons_append,
      List.find?_cons_of_neg _ (by simp [h x (List.mem_cons_self x xs)])]
    exact ih (fun y hy => h y (List.mem_cons_of_mem x hy))

/-- With pairwise distinct element ids, searching a list for a member's id
finds that member. -/
theorem find?_eid_self (l : List PageElem) (el : PageElem)
    (hnd : (l.map PageElem.eid).Nodup) (hmem : el ∈ l) :
    l.find? (fun e => e.eid == el.eid) = some el := by
  induction l with
  | nil => cases hmem
  | cons x xs ih =>
    rw [List.map_cons, List.nodup_cons] at hnd
    rcases List.mem_cons.mp hmem with rfl | hmem'
    · exact List.find?_cons_of_pos _ (by simp)
    · have hx : ¬ (x.eid == el.eid) = true := by
        simp only [beq_iff_eq]
        intro heq
        exact hnd.1 (by rw [heq]; exact List.mem_map_of_mem _ hmem')
      rw [List.find?_cons_of_neg (p := fun e => e.eid == el.eid) xs hx]
      exact ih hnd.2 hmem'

/-- Unpacking a successful, matching lookup. -/
theorem querySelector_found_elim (env : Env) (dom : DOMState) (s : String)
    (el : PageElem) (h : querySelector env dom s = .ok (some el)) :
    dom.pageElems.find? (fun e => env.matchesElem s e.eid) = some el ∧
      el ∈ dom.pageElems := by
  unfold querySelector at h
  split at h
  · simp at h
  · split at h
    · rw [Except.ok.injEq] at h
      exact ⟨h, List.mem_of_find?_eq_some h⟩
    · simp at h

/-- In a well-formed document, measuring a page element by its id yields its
own rectangle. -/
theorem getRect_found (dom : DOMState) (el : PageElem)
    (hnd : (dom.pageElems.map PageElem.eid).Nodup)
    (hmem : el ∈ dom.pageElems) :
    getRect dom el.eid = el.rect := by
  unfold getRect
  rw [find?_eid_self dom.pageElems el hnd hmem]

/-- After a found-element call, the freshly created overlay is readable by
its id and already holds the initial render of the target's rectangle. -/
theorem readOverlay_after_found (env : Env) (dom : DOMState)
    (options : Options) (el : PageElem) (hwf : DOMWf dom)
    (h : querySelector env dom (resolvedSelector options) = .ok (some el)) :
    ∃ dom' t, showElementDimensions env dom options = .ok (dom', t) ∧
      readOverlay dom' dom.nextId = some
        { oid := dom.nextId, className := "sizing-results-bloc"
          style := overlayStyle (resolvedColor options)
          content := (updateDimensions (resolvedSelector options) dom.innerWidth dom.innerHeight el.rect) } := by
  obtain ⟨hfind, hmem⟩ := querySelector_found_elim env dom _ el h
  have hgr : getRect dom el.eid = el.rect := getRect_found dom el hwf.2.2 hmem
  refine ⟨_, _, showElementDimensions_found_eq env dom options el h, ?_⟩
  unfold readOverlay
  simp only [List.map_append, List.map_cons, List.map_nil]
  rw [find?_skip_left _ _ _ ?_]
  · rw [hgr]
    simp
  · intro x hx
    obtain ⟨o, ho, rfl⟩ := List.mem_map.mp hx
    have hne : o.oid ≠ dom.nextId := Nat.ne_of_lt (hwf.2.1 o ho)
    have hb : (o.oid == dom.nextId) = false := beq_eq_false_iff_ne.mpr hne
    simp [hb]

/-- Two-digit groups really have two characters. -/
theorem twoDigits_length (n : Nat) (h : n < 100) : (twoDigits n).length = 2 := by
  revert h
  revert n
  decide

/-- C3: on the found-element path each run of the render operation writes the
two-line block: line 1 reports the viewport width and height, the `<br>`
separator follows, and line 2 starts with the caller-supplied selector string
and reports the element's bounding-box width and height with exactly two
decimal places, each followed by the `px` unit.  Stated for the initial run
performed by the call itself. -/
theorem c3_initial_render (env : Env) (dom : DOMState) (options : Options)
    (el : PageElem) (hwf : DOMWf dom)
    (h : querySelector env dom (resolvedSelector options) = .ok (some el)) :
    ∃ dom' t ov,
      showElementDimensions env dom options = .ok (dom', t) ∧
      readOverlay dom' dom.nextId = some ov ∧
      ov.content = updateDimensions (resolvedSelector options)
        dom.innerWidth dom.innerHeight el.rect ∧
      ∃ wInt wFrac hInt hFrac : String,
        ov.content =
          "\n            Viewport => width: " ++ toString dom.innerWidth ++
            "px | height: " ++ toString dom.innerHeight ++
            "px\n            <br>\n            " ++ resolvedSelector options ++
            " => width: " ++ wInt ++ "." ++ wFrac ++ " px | height: " ++
            hInt ++ "." ++ hFrac ++ " px\n          " ∧
        wFrac.length = 2 ∧ hFrac.length = 2 := by
  obtain ⟨dom', t, hrun, hread⟩ := readOverlay_after_found env dom options el hwf h
  refine ⟨dom', t, _, hrun, hread, rfl,
    toString (el.rect.width / 100), twoDigits (el.rect.width % 100),
    toString (el.rect.height / 100), twoDigits (el.rect.height % 100), ?_,
    twoDigits_length _ (Nat.mod_lt _ (by decide)),
    twoDigits_length _ (Nat.mod_lt _ (by decide))⟩
  show updateDimensions (resolvedSelector options)
      dom.innerWidth dom.innerHeight el.rect = _
  unfold updateDimensions toFixed2
  simp only [String.append_assoc]

/-- Witness for C3 at a concrete matched element. -/
theorem c3_initial_render_witness :
    DOMWf dom0 ∧
    querySelector envA dom0 (resolvedSelector { selector := some "#target" }) =
      .ok (some ⟨0, ⟨12345, 20000⟩⟩) ∧
    (∃ dom' t ov,
      showElementDimensions envA dom0 { selector := some "#target" } =
        .ok (dom', t) ∧
      readOverlay dom' dom0.nextId = some ov ∧
      ov.content = updateDimensions (resolvedSelector { selector := some "#target" })
        dom0.innerWidth dom0.innerHeight (⟨12345, 20000⟩ : Rect) ∧
      ∃ wInt wFrac hInt hFrac : String,
        ov.content =
          "\n            Viewport => width: " ++ toString dom0.innerWidth ++
            "px | height: " ++ toString dom0.innerHeight ++
            "px\n            <br>\n            " ++
            resolvedSelector { selector := some "#target" } ++
            " => width: " ++ wInt ++ "." ++ wFrac ++ " px | height: " ++
            hInt ++ "." ++ hFrac ++ " px\n          " ∧
        wFrac.length = 2 ∧ hFrac.length = 2) :=
  ⟨by decide, rfl,
   c3_initial_render envA dom0 { selector := some "#target" }
     ⟨0, ⟨12345, 20000⟩⟩ (by decide) rfl⟩

/-- C5: on the found-element path, when `ResizeObserver` is supported exactly
one observer is created, its callback is the render closure, and it observes
the target element only — the observed id differs from the freshly created
overlay's id.  In every case (with or without `ResizeObserver`) exactly one
window resize listener bound to the same render closure is registered. -/
theorem c5_live_update_wiring (env : Env) (dom : DOMState) (options : Options)
    (el : PageElem) (hwf : DOMWf dom)
    (h : querySelector env dom (resolvedSelector options) = .ok (some el)) :
    ∃ dom' t, showElementDimensions env dom options = .ok (dom', t) ∧
      dom'.observers = dom.observers ++
        (if env.supportsRO then
           [⟨el.eid, ⟨resolvedSelector options, el.eid, dom.nextId⟩⟩]
         else []) ∧
      dom'.resizeListeners = dom.resizeListeners ++
        [⟨resolvedSelector options, el.eid, dom.nextId⟩] ∧
      el.eid ≠ dom.nextId := by
  obtain ⟨hfind, hmem⟩ := querySelector_found_elim env dom _ el h
  exact ⟨_, _, showElementDimensions_found_eq env dom options el h, rfl, rfl,
    Nat.ne_of_lt (hwf.1 el hmem)⟩

/-- Witness for C5 at a concrete matched element. -/
theorem c5_live_update_wiring_witness :
    DOMWf dom0 ∧
    querySelector envA dom0 (resolvedSelector { selector := some "#target" }) =
      .ok (some ⟨0, ⟨12345, 20000⟩⟩) ∧
    (∃ dom' t,
      showElementDimensions envA dom0 { selector := some "#target" } =
        .ok (dom', t) ∧
      dom'.observers = dom0.observers ++
        (if envA.supportsRO then
           [⟨(⟨0, ⟨12345, 20000⟩⟩ : PageElem).eid,
             ⟨resolvedSelector { selector := some "#target" },
              (⟨0, ⟨12345, 20000⟩⟩ : PageElem).eid, dom0.nextId⟩⟩]
         else []) ∧
      dom'.resizeListeners = dom0.resizeListeners ++
        [⟨resolvedSelector { selector := some "#target" },
          (⟨0, ⟨12345, 20000⟩⟩ : PageElem).eid, dom0.nextId⟩] ∧
      (⟨0, ⟨12345, 20000⟩⟩ : PageElem).eid ≠ dom0.nextId) :=
  ⟨by decide, rfl,
   c5_live_update_wiring envA dom0 { selector := some "#target" }
     ⟨0, ⟨12345, 20000⟩⟩ (by decide) rfl⟩

/-- C6: on the found-element path the trace decomposes as
`pre ++ [append, render] ++ post` where `pre` holds no render and no binding
event and `post` holds only binding events: the overlay is appended, then the
render operation runs exactly once, immediately, and only afterwards are the
resize bindings installed — so the overlay already holds the initial values
when the call returns. -/
theorem c6_append_then_render_once (env : Env) (dom : DOMState)
    (options : Options) (el : PageElem) (hwf : DOMWf dom)
    (h : querySelector env dom (resolvedSelector options) = .ok (some el)) :
    ∃ dom' t ov,
      showElementDimensions env dom options = .ok (dom', t) ∧
      (∃ pre post,
        t = pre ++ [Ev.appendEv dom.nextId, Ev.renderEv dom.nextId] ++ post ∧
        (∀ e ∈ pre, isRenderEv e = false ∧ isBindingEv e = false) ∧
        (∀ e ∈ post, isBindingEv e = true ∧ isRenderEv e = false)) ∧
      readOverlay dom' dom.nextId = some ov ∧
      ov.content = updateDimensions (resolvedSelector options)
        dom.innerWidth dom.innerHeight el.rect := by
  obtain ⟨dom', t, hrun, hread⟩ :=
    readOverlay_after_found env dom options el hwf h
  have hexp := showElementDimensions_found_eq env dom options el h
  rw [hrun, Except.ok.injEq, Prod.mk.injEq] at hexp
  obtain ⟨-, ht⟩ := hexp
  refine ⟨dom', t, _, hrun, ?_, hread, rfl⟩
  refine ⟨[Ev.queryEv (resolvedSelector options), Ev.createEv dom.nextId,
           Ev.styleEv dom.nextId, Ev.checkEv true],
          (if env.supportsRO then [Ev.observeEv el.eid] else []) ++
            [Ev.listenEv], ?_, ?_, ?_⟩
  · rw [ht]
    cases hRO : env.supportsRO <;> simp [hRO]
  · simp [isRenderEv, isBindingEv]
  · cases hRO : env.supportsRO <;> simp [hRO, isRenderEv, isBindingEv]

/-- Witness for C6 at a concrete matched element. -/
theorem c6_append_then_render_once_witness :
    DOMWf dom0 ∧
    querySelector envA dom0 (resolvedSelector { selector := some "#target" }) =
      .ok (some ⟨0, ⟨12345, 20000⟩⟩) ∧
    (∃ dom' t ov,
      showElementDimensions envA dom0 { selector := some "#target" } =
        .ok (dom', t) ∧
      (∃ pre post,
        t = pre ++ [Ev.appendEv dom0.nextId, Ev.renderEv dom0.nextId] ++ post ∧
        (∀ e ∈ pre, isRenderEv e = false ∧ isBindingEv e = false) ∧
        (∀ e ∈ post, isBindingEv e = true ∧ isRenderEv e = false)) ∧
      readOverlay dom' dom0.nextId = some ov ∧
      ov.content = updateDimensions (resolvedSelector { selector := some "#target" })
        dom0.innerWidth dom0.innerHeight ((⟨0, ⟨12345, 20000⟩⟩ : PageElem)).rect) :=
  ⟨by decide, rfl,
   c6_append_then_render_once envA dom0 { selector := some "#target" }
     ⟨0, ⟨12345, 20000⟩⟩ (by decide) rfl⟩

/-- `find?` ignores a suffix on which the predicate is everywhere false. -/
theorem find?_skip_right {α : Type} (p : α → Bool) (l₁ l₂ : List α)
    (h : ∀ x ∈ l₂, p x = false) :
    (l₁ ++ l₂).find? p = l₁.find? p := by
  induction l₁ with
  | nil =>
    simp only [List.nil_append, List.find?_nil]
    exact List.find?_eq_none.mpr (fun x hx => by simp [h x hx])
  | cons x xs ih =>
    by_cases hx : p x = true
    · rw [List.cons_append, List.find?_cons_of_pos _ hx,
        List.find?_cons_of_pos _ hx]
    · rw [List.cons_append, List.find?_cons_of_neg _ (by simp [hx]),
        List.find?_cons_of_neg _ (by simp [hx])]
      exact ih

/-- Overwriting the content of the overlay with id `cid` does not change what
a lookup for any other id finds. -/
theorem find?_map_setContent (l : List Overlay) (cid : Nat) (s : String)
    (i : Nat) (hne : i ≠ cid) :
    (l.map (fun o => if o.oid == cid then { o with content := s } else o)).find?
        (fun o => o.oid == i) = l.find? (fun o => o.oid == i) := by
  induction l with
  | nil => rfl
  | cons x xs ih =>
    simp only [List.map_cons]
    by_cases hxi : x.oid = i
    · have hxc : (x.oid == cid) = false :=
        beq_eq_false_iff_ne.mpr (by rw [hxi]; exact hne)
      rw [if_neg (by simp [hxc])]
      rw [List.find?_cons_of_pos (p := fun (o : Overlay) => o.oid == i) _ (by simp [hxi]),
        List.find?_cons_of_pos (p := fun (o : Overlay) => o.oid == i) _ (by simp [hxi])]
    · by_cases hxc : (x.oid == cid) = true
      · rw [if_pos hxc]
        rw [List.find?_cons_of_neg (p := fun (o : Overlay) => o.oid == i) _ (by simp [hxi]),
          List.find?_cons_of_neg (p := fun (o : Overlay) => o.oid == i) _ (by simp [hxi])]
        exact ih
      · rw [if_neg hxc]
        rw [List.find?_cons_of_neg (p := fun (o : Overlay) => o.oid == i) _ (by simp [hxi]),
          List.find?_cons_of_neg (p := fun (o : Overlay) => o.oid == i) _ (by simp [hxi])]
        exact ih

/-- A run of the render operation leaves the readback of every other overlay
unchanged. -/
theorem readOverlay_runRender_other (d : DOMState) (c : RenderClosure)
    (i : Nat) (hne : i ≠ c.oid) :
    readOverlay (runRender d c) i = readOverlay d i := by
  unfold readOverlay runRender setOverlayContent
  exact find?_map_setContent d.overlays c.oid _ i hne

/-- The lookup depends on the document only through its page elements. -/
theorem querySelector_pageElems (env : Env) (d d' : DOMState) (s : String)
    (hpe : d'.pageElems = d.pageElems) :
    querySelector env d' s = querySelector env d s := by
  unfold querySelector
  rw [hpe]

/-- After a missing-element call, the freshly created overlay is readable by
its id and holds the error message. -/
theorem readOverlay_after_missing (env : Env) (dom : DOMState)
    (options : Options) (hwf : DOMWf dom)
    (h : querySelector env dom (resolvedSelector options) = .ok none) :
    ∃ dom' t, showElementDimensions env dom options = .ok (dom', t) ∧
      readOverlay dom' dom.nextId = some
        { oid := dom.nextId, className := "sizing-results-bloc"
          style := overlayStyle (resolvedColor options)
          content := missingText (resolvedSelector options) } := by
  refine ⟨_, _, showElementDimensions_missing_eq env dom options h, ?_⟩
  unfold readOverlay
  rw [find?_skip_left _ _ _ ?_]
  · simp
  · intro x hx
    exact beq_eq_false_iff_ne.mpr (Nat.ne_of_lt (hwf.2.1 x hx))

/-- Facts every successful call preserves or establishes: the page elements
are untouched, the fresh-id counter advances by one, exactly one overlay is
appended, and well-formedness is preserved. -/
theorem preserved_after_call (env : Env) (dom : DOMState) (options : Options)
    (d' : DOMState) (t : List Ev)
    (hrun : showElementDimensions env dom options = .ok (d', t)) :
    d'.pageElems = dom.pageElems ∧ d'.nextId = dom.nextId + 1 ∧
      d'.overlays.length = dom.overlays.length + 1 ∧
      (DOMWf dom → DOMWf d') := by
  cases hq : querySelector env dom (resolvedSelector options) with
  | error e =>
    rw [showElementDimensions_raise_eq env dom options e hq] at hrun
    cases hrun
  | ok elemOpt =>
    cases elemOpt with
    | none =>
      have hexp := showElementDimensions_missing_eq env dom options hq
      rw [hrun, Except.ok.injEq, Prod.mk.injEq] at hexp
      obtain ⟨hd, -⟩ := hexp
      subst hd
      refine ⟨rfl, rfl, by simp, fun hwf => ?_⟩
      refine ⟨fun e he => Nat.lt_succ_of_lt (hwf.1 e he), ?_, hwf.2.2⟩
      intro o ho
      rcases List.mem_append.mp ho with ho' | ho'
      · exact Nat.lt_succ_of_lt (hwf.2.1 o ho')
      · rw [List.mem_singleton] at ho'
        subst ho'
        exact Nat.lt_succ_self _
    | some el =>
      have hexp := showElementDimensions_found_eq env dom options el hq
      rw [hrun, Except.ok.injEq, Prod.mk.injEq] at hexp
      obtain ⟨hd, -⟩ := hexp
      subst hd
      refine ⟨rfl, rfl, by simp, fun hwf => ?_⟩
      refine ⟨fun e he => Nat.lt_succ_of_lt (hwf.1 e he), ?_, hwf.2.2⟩
      intro o' ho'
      obtain ⟨o, ho, rfl⟩ := List.mem_map.mp ho'
      have hoid : (if o.oid == dom.nextId then
          { o with content := (updateDimensions (resolvedSelector options) dom.innerWidth dom.innerHeight (getRect dom el.eid)) }
        else o).oid = o.oid := by
        split <;> rfl
      rw [hoid]
      rcases List.mem_append.mp ho with ho2 | ho2
      · exact Nat.lt_succ_of_lt (hwf.2.1 o ho2)
      · rw [List.mem_singleton] at ho2
        subst ho2
        exact Nat.lt_succ_self _

/-- A call never disturbs the readback of any previously created overlay. -/
theorem readOverlay_old_of_call (env : Env) (dom : DOMState)
    (options : Options) (d' : DOMState) (t : List Ev) (i : Nat)
    (hlt : i < dom.nextId)
    (hrun : showElementDimensions env dom options = .ok (d', t)) :
    readOverlay d' i = readOverlay dom i := by
  cases hq : querySelector env dom (resolvedSelector options) with
  | error e =>
    rw [showElementDimensions_raise_eq env dom options e hq] at hrun
    cases hrun
  | ok elemOpt =>
    cases elemOpt with
    | none =>
      have hexp := showElementDimensions_missing_eq env dom options hq
      rw [hrun, Except.ok.injEq, Prod.mk.injEq] at hexp
      obtain ⟨hd, -⟩ := hexp
      subst hd
      unfold readOverlay
      refine find?_skip_right _ _ _ ?_
      intro x hx
      rw [List.mem_singleton] at hx
      subst hx
      exact beq_eq_false_iff_ne.mpr (Ne.symm (Nat.ne_of_lt hlt))
    | some el =>
      have hexp := showElementDimensions_found_eq env dom options el hq
      rw [hrun, Except.ok.injEq, Prod.mk.injEq] at hexp
      obtain ⟨hd, -⟩ := hexp
      subst hd
      unfold readOverlay
      rw [find?_map_setContent _ dom.nextId _ i (Nat.ne_of_lt hlt)]
      refine find?_skip_right _ _ _ ?_
      intro x hx
      rw [List.mem_singleton] at hx
      subst hx
      exact beq_eq_false_iff_ne.mpr (Ne.symm (Nat.ne_of_lt hlt))

/-- C7: every overlay created by a returning call satisfies the visual
contract, with the exact property values the source assigns: fixed position
10px from the top, centered by a `translateX(-50%)` transform, a 2px solid
border and text in the resolved color, bold weight, cornsilk (`#fff8dc`)
background, `5px 10px` padding, zero margin, inline-block display, a soft
drop shadow, and the stacking priority the source uses for "above all
ordinary page content", z-index 9999. -/
theorem c7_visual_contract (env : Env) (dom : DOMState) (options : Options)
    (dom' : DOMState) (t : List Ev) (hwf : DOMWf dom)
    (h : showElementDimensions env dom options = .ok (dom', t)) :
    ∃ ov, readOverlay dom' dom.nextId = some ov ∧
      ov.className = "sizing-results-bloc" ∧
      ov.style.position = "fixed" ∧
      ov.style.top = "10px" ∧
      ov.style.left = "50%" ∧
      ov.style.transform = "translateX(-50%)" ∧
      ov.style.zIndex = "9999" ∧
      ov.style.border = "2px solid " ++ resolvedColor options ∧
      ov.style.color = resolvedColor options ∧
      ov.style.fontWeight = "bold" ∧
      ov.style.backgroundColor = "#fff8dc" ∧
      ov.style.padding = "5px 10px" ∧
      ov.style.margin = "0" ∧
      ov.style.display = "inline-block" ∧
      ov.style.boxShadow = "0 2px 5px rgba(0,0,0,0.2)" := by
  cases hq : querySelector env dom (resolvedSelector options) with
  | error e =>
    rw [showElementDimensions_raise_eq env dom options e hq] at h
    cases h
  | ok elemOpt =>
    cases elemOpt with
    | none =>
      obtain ⟨D, T, hrun, hread⟩ :=
        readOverlay_after_missing env dom options hwf hq
      rw [hrun, Except.ok.injEq, Prod.mk.injEq] at h
      obtain ⟨hd, -⟩ := h
      subst hd
      exact ⟨_, hread, rfl, rfl, rfl, rfl, rfl, rfl, rfl, rfl, rfl, rfl,
        rfl, rfl, rfl, rfl⟩
    | some el =>
      obtain ⟨D, T, hrun, hread⟩ :=
        readOverlay_after_found env dom options el hwf hq
      rw [hrun, Except.ok.injEq, Prod.mk.injEq] at h
      obtain ⟨hd, -⟩ := h
      subst hd
      exact ⟨_, hread, rfl, rfl, rfl, rfl, rfl, rfl, rfl, rfl, rfl, rfl,
        rfl, rfl, rfl, rfl⟩

/-- Witness for C7 at a concrete missing-element call. -/
theorem c7_visual_contract_witness :
    DOMWf dom0 ∧
    showElementDimensions envA dom0
        { selector := some "#nomatch", color := some "blue" } =
      .ok (domMissingBlue,
           [Ev.queryEv "#nomatch", Ev.createEv 2, Ev.styleEv 2,
            Ev.checkEv false, Ev.appendEv 2]) ∧
    (∃ ov, readOverlay domMissingBlue dom0.nextId = some ov ∧
      ov.className = "sizing-results-bloc" ∧
      ov.style.position = "fixed" ∧
      ov.style.top = "10px" ∧
      ov.style.left = "50%" ∧
      ov.style.transform = "translateX(-50%)" ∧
      ov.style.zIndex = "9999" ∧
      ov.style.border = "2px solid " ++
        resolvedColor { selector := some "#nomatch", color := some "blue" } ∧
      ov.style.color =
        resolvedColor { selector := some "#nomatch", color := some "blue" } ∧
      ov.style.fontWeight = "bold" ∧
      ov.style.backgroundColor = "#fff8dc" ∧
      ov.style.padding = "5px 10px" ∧
      ov.style.margin = "0" ∧
      ov.style.display = "inline-block" ∧
      ov.style.boxShadow = "0 2px 5px rgba(0,0,0,0.2)") :=
  ⟨by decide, rfl,
   c7_visual_contract envA dom0
     { selector := some "#nomatch", color := some "blue" }
     domMissingBlue
     [Ev.queryEv "#nomatch", Ev.createEv 2, Ev.styleEv 2,
      Ev.checkEv false, Ev.appendEv 2]
     (by decide) rfl⟩

/-- C8: two successive calls create two distinct overlays (one appended per
call, with distinct fresh ids — no pooling), and each call's render closure
only ever writes its own overlay: running it leaves the readback of every
other overlay id, in particular the other call's overlay, unchanged. -/
theorem c8_independent_overlays (env : Env) (dom : DOMState) (o1 o2 : Options)
    (e1 e2 : PageElem) (hwf : DOMWf dom)
    (h1 : querySelector env dom (resolvedSelector o1) = .ok (some e1))
    (h2 : querySelector env dom (resolvedSelector o2) = .ok (some e2)) :
    ∃ d1 t1 d2 t2 ov1 ov2,
      showElementDimensions env dom o1 = .ok (d1, t1) ∧
      showElementDimensions env d1 o2 = .ok (d2, t2) ∧
      d2.overlays.length = dom.overlays.length + 2 ∧
      readOverlay d2 dom.nextId = some ov1 ∧
      readOverlay d2 (dom.nextId + 1) = some ov2 ∧
      ov1.oid ≠ ov2.oid ∧
      (∀ d i, i ≠ ov1.oid →
        readOverlay (runRender d ⟨resolvedSelector o1, e1.eid, dom.nextId⟩) i =
          readOverlay d i) ∧
      (∀ d i, i ≠ ov2.oid →
        readOverlay (runRender d ⟨resolvedSelector o2, e2.eid, dom.nextId + 1⟩) i =
          readOverlay d i) := by
  obtain ⟨d1, t1, hrun1, hread1⟩ :=
    readOverlay_after_found env dom o1 e1 hwf h1
  obtain ⟨hpe1, hnid1, hlen1, hwfp1⟩ :=
    preserved_after_call env dom o1 d1 t1 hrun1
  have hw1 : DOMWf d1 := hwfp1 hwf
  have h2' : querySelector env d1 (resolvedSelector o2) = .ok (some e2) := by
    rw [querySelector_pageElems env dom d1 _ hpe1]
    exact h2
  obtain ⟨d2, t2, hrun2, hread2⟩ :=
    readOverlay_after_found env d1 o2 e2 hw1 h2'
  obtain ⟨hpe2, hnid2, hlen2, hwfp2⟩ :=
    preserved_after_call env d1 o2 d2 t2 hrun2
  have hold : readOverlay d2 dom.nextId = readOverlay d1 dom.nextId :=
    readOverlay_old_of_call env d1 o2 d2 t2 dom.nextId
      (by rw [hnid1]; exact Nat.lt_succ_self _) hrun2
  refine ⟨d1, t1, d2, t2,
    { oid := dom.nextId, className := "sizing-results-bloc"
      style := overlayStyle (resolvedColor o1)
      content := (updateDimensions (resolvedSelector o1) dom.innerWidth dom.innerHeight e1.rect) },
    { oid := d1.nextId, className := "sizing-results-bloc"
      style := overlayStyle (resolvedColor o2)
      content := (updateDimensions (resolvedSelector o2) d1.innerWidth d1.innerHeight e2.rect) },
    hrun1, hrun2, ?_, ?_, ?_, ?_, ?_, ?_⟩
  · rw [hlen2, hlen1]
  · rw [hold]
    exact hread1
  · rw [← hnid1]
    exact hread2
  · dsimp only
    rw [hnid1]
    omega
  · intro d i hi
    exact readOverlay_runRender_other d _ i hi
  · intro d i hi
    refine readOverlay_runRender_other d _ i ?_
    dsimp only
    rw [← hnid1]
    exact hi

/-- Witness for C8 at two concrete matched elements. -/
theorem c8_independent_overlays_witness :
    DOMWf dom0 ∧
    querySelector envA dom0 (resolvedSelector { selector := some "#target" }) =
      .ok (some ⟨0, ⟨12345, 20000⟩⟩) ∧
    querySelector envA dom0 (resolvedSelector { selector := some "#other" }) =
      .ok (some ⟨1, ⟨5000, 5075⟩⟩) ∧
    (∃ d1 t1 d2 t2 ov1 ov2,
      showElementDimensions envA dom0 { selector := some "#target" } =
        .ok (d1, t1) ∧
      showElementDimensions envA d1 { selector := some "#other" } =
        .ok (d2, t2) ∧
      d2.overlays.length = dom0.overlays.length + 2 ∧
      readOverlay d2 dom0.nextId = some ov1 ∧
      readOverlay d2 (dom0.nextId + 1) = some ov2 ∧
      ov1.oid ≠ ov2.oid ∧
      (∀ d i, i ≠ ov1.oid →
        readOverlay (runRender d ⟨resolvedSelector { selector := some "#target" },
          (⟨0, ⟨12345, 20000⟩⟩ : PageElem).eid, dom0.nextId⟩) i =
          readOverlay d i) ∧
      (∀ d i, i ≠ ov2.oid →
        readOverlay (runRender d ⟨resolvedSelector { selector := some "#other" },
          (⟨1, ⟨5000, 5075⟩⟩ : PageElem).eid, dom0.nextId + 1⟩) i =
          readOverlay d i)) :=
  ⟨by decide, rfl, rfl,
   c8_independent_overlays envA dom0
     { selector := some "#target" } { selector := some "#other" }
     ⟨0, ⟨12345, 20000⟩⟩ ⟨1, ⟨5000, 5075⟩⟩ (by decide) rfl rfl⟩

/-- C9: a run of the render operation mutates only the bound overlay's
displayed content: the viewport, the page elements, the observers, the
listeners, the id counter and the number of overlays are unchanged; every
overlay with a different id is untouched; and every overlay keeps its id,
class and style — only content can differ. -/
theorem c9_render_frame (dom : DOMState) (c : RenderClosure) :
    (runRender dom c).innerWidth = dom.innerWidth ∧
    (runRender dom c).innerHeight = dom.innerHeight ∧
    (runRender dom c).pageElems = dom.pageElems ∧
    (runRender dom c).observers = dom.observers ∧
    (runRender dom c).resizeListeners = dom.resizeListeners ∧
    (runRender dom c).nextId = dom.nextId ∧
    (runRender dom c).overlays.length = dom.overlays.length ∧
    (∀ o ∈ dom.overlays, o.oid ≠ c.oid → o ∈ (runRender dom c).overlays) ∧
    (∀ o' ∈ (runRender dom c).overlays, ∃ o ∈ dom.overlays,
       o'.oid = o.oid ∧ o'.className = o.className ∧ o'.style = o.style) := by
  unfold runRender setOverlayContent
  refine ⟨rfl, rfl, rfl, rfl, rfl, rfl, by simp, ?_, ?_⟩
  · intro o ho hne
    have hb : (o.oid == c.oid) = false := beq_eq_false_iff_ne.mpr hne
    refine List.mem_map.mpr ⟨o, ho, ?_⟩
    rw [if_neg (by simp [hb])]
  · intro o' ho'
    obtain ⟨o, ho, rfl⟩ := List.mem_map.mp ho'
    refine ⟨o, ho, ?_, ?_, ?_⟩ <;> (split <;> rfl)

/-- C10: the overlay's class and full styling are applied before the element
lookup is checked — the trace always starts with query, create, style and
only then the found/missing check — so the overlay of a missing-element call
carries exactly the same styling, `overlayStyle` of the resolved color, as
the overlay of a found-element call. -/
theorem c10_styling_before_check (env : Env) (dom : DOMState)
    (options : Options) (dom' : DOMState) (t : List Ev) (hwf : DOMWf dom)
    (h : showElementDimensions env dom options = .ok (dom', t)) :
    (∃ found rest,
       t = [Ev.queryEv (resolvedSelector options), Ev.createEv dom.nextId,
            Ev.styleEv dom.nextId, Ev.checkEv found] ++ rest) ∧
    ∃ ov, readOverlay dom' dom.nextId = some ov ∧
      ov.style = overlayStyle (resolvedColor options) ∧
      ov.className = "sizing-results-bloc" := by
  cases hq : querySelector env dom (resolvedSelector options) with
  | error e =>
    rw [showElementDimensions_raise_eq env dom options e hq] at h
    cases h
  | ok elemOpt =>
    cases elemOpt with
    | none =>
      obtain ⟨D, T, hrun, hread⟩ :=
        readOverlay_after_missing env dom options hwf hq
      have hexp := showElementDimensions_missing_eq env dom options hq
      rw [hrun, Except.ok.injEq, Prod.mk.injEq] at hexp
      obtain ⟨-, hT⟩ := hexp
      rw [hrun, Except.ok.injEq, Prod.mk.injEq] at h
      obtain ⟨hd, ht⟩ := h
      subst hd
      subst ht
      refine ⟨⟨false, [Ev.appendEv dom.nextId], by rw [hT]; rfl⟩,
        _, hread, rfl, rfl⟩
    | some el =>
      obtain ⟨D, T, hrun, hread⟩ :=
        readOverlay_after_found env dom options el hwf hq
      have hexp := showElementDimensions_found_eq env dom options el hq
      rw [hrun, Except.ok.injEq, Prod.mk.injEq] at hexp
      obtain ⟨-, hT⟩ := hexp
      rw [hrun, Except.ok.injEq, Prod.mk.injEq] at h
      obtain ⟨hd, ht⟩ := h
      subst hd
      subst ht
      refine ⟨⟨true, [Ev.appendEv dom.nextId, Ev.renderEv dom.nextId] ++
        (if env.supportsRO then [Ev.observeEv el.eid] else []) ++
        [Ev.listenEv], ?_⟩, _, hread, rfl, rfl⟩
      rw [hT]
      cases hRO : env.supportsRO <;> simp [hRO]

/-- Witness for C10 at a concrete missing-element call with the default
color. -/
theorem c10_styling_before_check_witness :
    DOMWf dom0 ∧
    showElementDimensions envA dom0 { selector := some "#gone" } =
      .ok (domMissingGray,
           [Ev.queryEv "#gone", Ev.createEv 2, Ev.styleEv 2,
            Ev.checkEv false, Ev.appendEv 2]) ∧
    ((∃ found rest,
       ([Ev.queryEv "#gone", Ev.createEv 2, Ev.styleEv 2,
         Ev.checkEv false, Ev.appendEv 2] : List Ev) =
         [Ev.queryEv (resolvedSelector { selector := some "#gone" }),
          Ev.createEv dom0.nextId, Ev.styleEv dom0.nextId,
          Ev.checkEv found] ++ rest) ∧
    ∃ ov, readOverlay domMissingGray dom0.nextId = some ov ∧
      ov.style = overlayStyle (resolvedColor { selector := some "#gone" }) ∧
      ov.className = "sizing-results-bloc") :=
  ⟨by decide, rfl,
   c10_styling_before_check envA dom0 { selector := some "#gone" }
     domMissingGray
     [Ev.queryEv "#gone", Ev.createEv 2, Ev.styleEv 2,
      Ev.checkEv false, Ev.appendEv 2]
     (by decide) rfl⟩

/-- C4: calling `showElementDimensions` with an empty configuration resolves
the selector to `"body"` and the color to `"#989898"`, and the call behaves
exactly as if the fully resolved configuration had been supplied. -/
theorem c4_default_resolution (env : Env) (dom : DOMState) :
    resolvedSelector {} = "body" ∧ resolvedColor {} = "#989898" ∧
    showElementDimensions env dom {} =
      showElementDimensions env dom
        { selector := some "body", color := some "#989898" } :=
  ⟨rfl, rfl, rfl⟩

end RDI
